import Mathlib

/-!
Shallow embedding of the session manager (src/src/nodes/AccessController.ts)
and the shared realtime channel (SharedProtectWebSocket) of
node-red-contrib-unifi-os, with theorems checking the specification's claims.

The network is modelled by explicit outcome values fed to the step functions:
an Axios call either delivers a response (axios delivers statuses 200..299 to
the then-branch and throws for everything else, per its default validateStatus)
or throws (network error / abort).  Promise settlement is modelled explicitly:
a promise settles at most once, and only the first settlement is observable by
the caller.
-/

namespace UnifiOS

/-! ## Session manager state (fields of the AccessController node) -/

/-- Configuration fields used by urlBuilder (AccessControllerNodeConfigType):
controllerIp and the optional controllerPort. -/
structure ControllerConfig where
  controllerIp : String
  controllerPort : Option String
deriving DecidableEq

/-- Mutable fields of the access-controller node relevant to the claims:
self.authenticated, self.stopped and self.authCookie.  The cookie is
an optional string (undefined is modelled as none). -/
structure ControllerState where
  authenticated : Bool
  stopped : Bool
  authCookie : Option String
deriving DecidableEq

/-- urlBuilder from AccessController.ts lines 16-25: protocol base, then the
controller ip, then a colon-port segment when the configured port trims to a
nonempty string (JS truthiness of the length), then the endpoint.  The
protocol base string lives in Endpoints.ts, which is outside src/, so it is
passed as a parameter here. -/
def urlBuilder (base : String) (cfg : ControllerConfig) (endpoint : String) : String :=
  base ++ cfg.controllerIp ++
    (match cfg.controllerPort with
     | some p => if p.trim.length ≠ 0 then ":" ++ p else ""
     | none => "") ++
    endpoint

/-! ## getAuthCookie (AccessController.ts lines 95-151) -/

/-- JS truthiness of the optional cookie string: undefined and the empty
string are falsy, every other string is truthy. -/
def truthyStr : Option String → Bool
  | some c => !(c == "")
  | none => false

/-- Observable outcome of the synchronous head of getAuthCookie: either the
stored cookie is returned at once (Promise.resolve of self.authCookie, line
98), or a login call is issued (the authenticateWithRetry loop is entered). -/
inductive GetCookieResult
  | cached (c : Option String)
  | loginIssued
deriving DecidableEq

/-- getAuthCookie's dispatch, lines 96-99: the stored cookie is returned iff
self.authCookie is truthy and the regenerate argument is not strictly equal
to true (undefined and false both fall to the cached branch). -/
def getAuthCookie (s : ControllerState) (regenerate : Option Bool) : GetCookieResult :=
  if truthyStr s.authCookie = true ∧ regenerate ≠ some true then
    .cached s.authCookie
  else
    .loginIssued

/-- Outcome of one Axios.post login attempt as delivered by the environment:
a response carrying an HTTP status and a set-cookie header list, or a thrown
error (network failure, or an abort, which only changes the log line). -/
inductive LoginOutcome
  | response (status : Nat) (setCookie : List String)
  | failure (aborted : Bool)
deriving DecidableEq

/-- What one iteration of authenticateWithRetry does to the promise: resolve
with the (possibly absent) cookie, schedule the next iteration through
setTimeout, or leave the promise pending with nothing scheduled. -/
inductive LoginStepResult
  | resolved (c : Option String)
  | retryScheduled
  | pending
deriving DecidableEq

/-- One iteration of authenticateWithRetry, lines 107-147.  Axios delivers
statuses 200..299 to the then-branch and throws otherwise.  The then-branch
(lines 122-131) acts only when status is exactly 200: it stores the first
set-cookie value (which may be absent), sets authenticated and resolves; any
other 2xx status does nothing, leaving the promise pending.  The catch-branch
(lines 132-146) clears authenticated and the cookie, and schedules a retry
only when the node is not stopped. -/
def authenticateWithRetryStep (s : ControllerState) (o : LoginOutcome) :
    ControllerState × LoginStepResult :=
  match o with
  | .response status setCookie =>
      if 200 ≤ status ∧ status < 300 then
        if status = 200 then
          ({ s with authCookie := setCookie.head?, authenticated := true },
           .resolved setCookie.head?)
        else
          (s, .pending)
      else
        ({ s with authenticated := false, authCookie := none },
         if s.stopped then .pending else .retryScheduled)
  | .failure _ =>
      ({ s with authenticated := false, authCookie := none },
       if s.stopped then .pending else .retryScheduled)

/-- Result of running the authenticateWithRetry loop over a list of attempt
outcomes: the promise resolved with a cookie, the promise can never settle
(no retry was scheduled), or the loop is still awaiting its next scheduled
retry when the supplied outcomes end. -/
inductive LoginRunStatus
  | resolvedWith (c : Option String)
  | hung
  | awaitingRetry
deriving DecidableEq

/-- Runs authenticateWithRetry over successive attempt outcomes, following
the scheduling in lines 122-146: the loop continues exactly while each
iteration schedules a retry. -/
def authenticateWithRetryRun : ControllerState → List LoginOutcome → ControllerState × LoginRunStatus
  | s, [] => (s, .awaitingRetry)
  | s, o :: rest =>
      match authenticateWithRetryStep s o with
      | (s', .resolved c) => (s', .resolvedWith c)
      | (s', .pending) => (s', .hung)
      | (s', .retryScheduled) => authenticateWithRetryRun s' rest

/-- A login attempt outcome that lands in the catch-branch: a thrown error or
a response whose status axios does not deliver to then (outside 200..299). -/
def loginErr : LoginOutcome → Bool
  | .failure _ => true
  | .response status _ => decide (status < 200) || decide (300 ≤ status)

/-- A login outcome whose 200-response carries at least one set-cookie value;
non-200 outcomes are unrestricted. -/
def loginHeaderOk : LoginOutcome → Bool
  | .failure _ => true
  | .response status setCookie => if status = 200 then !setCookie.isEmpty else true

/-- The credential-state invariant claimed by the spec: the node is marked
authenticated exactly when a cookie is cached. -/
def credInvariant (s : ControllerState) : Bool :=
  s.authenticated == s.authCookie.isSome

/-- The on close handler, lines 211-215: sets stopped (the timer clear, the
abort and the best-effort logout do not touch the credential fields). -/
def onCloseStep (s : ControllerState) : ControllerState :=
  { s with stopped := true }

/-! ## request (AccessController.ts lines 153-209) -/

/-- Outcome of one Axios.request attempt inside request: a delivered response
with its data, a thrown HttpError carrying a status (the HttpError class is
outside src/; modelled from the spec: an authentication rejection is an error
carrying the HTTP status), or any other thrown error. -/
inductive RequestOutcome
  | success (data : String)
  | httpError (status : Nat)
  | otherError (msg : String)
deriving DecidableEq

/-- Error values with which the promise returned by request could be
rejected.  The validation constructor is the value a returned or awaited
rejection for an empty endpoint or method would deliver; the theorems show it
never reaches the caller. -/
inductive RequestError
  | http (status : Nat)
  | other (msg : String)
  | validation (msg : String)
deriving DecidableEq

/-- A promise settlement: fulfilled with response data or rejected with an
error value. -/
inductive Settle
  | fulfilled (d : String)
  | rejected (e : RequestError)
deriving DecidableEq

/-- One iteration of axiosRequest, lines 165-206.  The catch-branch runs for
any thrown error: when the error is an HttpError with status 401 it clears
authenticated and the cookie and schedules a resend through setTimeout (with
no stopped check), and in every error case it then calls reject(error)
unconditionally.  The then-branch chained after catch resolves with the data
when a response was delivered.  Returns the new state, the settlement this
iteration attempts, and whether a resend was scheduled. -/
def axiosRequestStep (s : ControllerState) (o : RequestOutcome) :
    ControllerState × Option Settle × Bool :=
  match o with
  | .success d => (s, some (.fulfilled d), false)
  | .httpError status =>
      if status = 401 then
        ({ s with authenticated := false, authCookie := none },
         some (.rejected (.http status)), true)
      else
        (s, some (.rejected (.http status)), false)
  | .otherError m => (s, some (.rejected (.other m)), false)

/-- Runs the axiosRequest loop over successive attempt outcomes.  A promise
settles only once, so the first settlement attempt is the one the caller
observes; later iterations (fired by scheduled resends) keep mutating the
node state but cannot re-settle the promise. -/
def axiosRequestRun : ControllerState → List RequestOutcome → ControllerState × Option Settle
  | s, [] => (s, none)
  | s, o :: rest =>
      match axiosRequestStep s o with
      | (s', stl, true) =>
          match axiosRequestRun s' rest with
          | (s'', stlRest) => (s'', stl.or stlRest)
      | (s', stl, false) => (s', stl)

/-- The dangling rejected promises created by the two validation ifs at lines
154-160: they are neither returned nor awaited, so they are recorded here as
a side list that the rest of request never consults. -/
def floatingRejections (endpoint method : String) : List String :=
  (if endpoint = "" then ["endpoint cannot be empty!"] else []) ++
  (if method = "" then ["method cannot be empty!"] else [])

/-- The value-relevant behaviour of request, lines 153-209: the URL is built
from the endpoint as given (line 162), and the returned promise is settled
only by the axiosRequest loop; the validation ifs contribute nothing to the
returned value. -/
def request (base : String) (cfg : ControllerConfig) (s : ControllerState)
    (endpoint : String) (outcomes : List RequestOutcome) :
    String × ControllerState × Option Settle :=
  (urlBuilder base cfg endpoint,
   (axiosRequestRun s outcomes).1,
   (axiosRequestRun s outcomes).2)

/-- Recognizes a settlement that would surface a validation error to the
caller. -/
def isValidationRejection : Option Settle → Bool
  | some (.rejected (.validation _)) => true
  | _ => false

/-! ## SharedProtectWebSocket (the second source file) -/

/-- An Interest as in the source: a deviceId filter and a callback.  The
callback type is kept abstract (kappa) since only its identity matters to the
claims. -/
structure Interest (κ : Type) where
  deviceId : String
  callback : κ
deriving DecidableEq

/-- State of a SharedProtectWebSocket instance: the stored bootstrap (only
its lastUpdateId is consumed, so a string stands for it), the callbacks
registry keyed by nodeId, and whether the underlying socket is open.  The
registry mirrors a JS object with string keys: an ordered list of key-value
pairs with unique keys. -/
structure ChannelState (κ : Type) where
  bootstrap : String
  callbacks : List (String × Interest κ)
  wsOpen : Bool
deriving DecidableEq

/-- The frame handler's decode step, Connect lines 69-79: try JSON.parse
first; only when it throws, hand the frame to
ProtectApiUpdates.decodeUpdatePacket.  JSON.parse is the runtime's parser and
the update-packet decoder lives outside src/ (modelled from the spec: an
opaque binary decoder that either produces a payload or fails), so both are
parameters returning Option. -/
def objectToSend {F P : Type} (parse decode : F → Option P) (f : F) : Option P :=
  match parse f with
  | some v => some v
  | none => decode f

/-- The message handler, Connect lines 69-84: decode the frame, then invoke
every registered callback with the decoded value, ignoring the deviceId
stored in each Interest.  Returns the (unchanged) channel state and the list
of invocation events (nodeId, callback, delivered payload). -/
def onFrame {κ F P : Type} (parse decode : F → Option P) (s : ChannelState κ) (f : F) :
    ChannelState κ × List (String × κ × Option P) :=
  (s, s.callbacks.map (fun e => (e.1, e.2.callback, objectToSend parse decode f)))

/-- Kinds of handler a WebSocket client can install. -/
inductive WSHandlerKind
  | message
  | close
  | error
deriving DecidableEq

/-- The handlers Connect installs on the socket, lines 56-88: the only
this.WS.on call is for message; no close or error handler exists (the
reconnect-timeout constant at the top of the file is commented out). -/
def connectHandlers : List WSHandlerKind := [.message]

/-- Connect, lines 56-88: opens the socket; the callbacks registry and the
stored bootstrap are not touched. -/
def Connect {κ : Type} (s : ChannelState κ) : ChannelState κ :=
  { s with wsOpen := true }

/-- Events the underlying socket can surface to the channel. -/
inductive WSEvent (F : Type)
  | message (f : F)
  | closed
  | errored
deriving DecidableEq

/-- The channel's reaction to a socket event.  A message runs the installed
handler.  A server-initiated close or a connection error runs no repository
code at all (no handler was installed), so the socket simply ends: no
dispatch happens and no reconnect is scheduled.  The final component records
whether a reconnect was scheduled. -/
def socketEventStep {κ F P : Type} (parse decode : F → Option P) (s : ChannelState κ) :
    WSEvent F → ChannelState κ × List (String × κ × Option P) × Bool
  | .message f => ((onFrame parse decode s f).1, (onFrame parse decode s f).2, false)
  | .closed => ({ s with wsOpen := false }, [], false)
  | .errored => (s, [], false)

/-- Upsert into the registry, modelling the JS property assignment
this.callbacks[nodeId] = interest of registerInterest (lines 94-97): a
present key keeps its position and gets the new value, an absent key is
appended. -/
def upsert {κ : Type} (reg : List (String × Interest κ)) (k : String) (i : Interest κ) :
    List (String × Interest κ) :=
  if reg.any (fun e => e.1 == k) then
    reg.map (fun e => if e.1 == k then (k, i) else e)
  else
    reg ++ [(k, i)]

/-- registerInterest, lines 94-97. -/
def registerInterest {κ : Type} (s : ChannelState κ) (k : String) (i : Interest κ) :
    ChannelState κ :=
  { s with callbacks := upsert s.callbacks k i }

/-- degisterInterest (name as in the source), lines 90-92: the JS delete of
the key. -/
def degisterInterest {κ : Type} (s : ChannelState κ) (k : String) : ChannelState κ :=
  { s with callbacks := s.callbacks.filter (fun e => !(e.1 == k)) }

/-- updateLastUpdateId, lines 99-101: replaces the stored bootstrap. -/
def updateLastUpdateId {κ : Type} (s : ChannelState κ) (newBootstrap : String) :
    ChannelState κ :=
  { s with bootstrap := newBootstrap }

/-! ## Concrete sample values used by witnesses -/

/-- A sample parse function standing for JSON.parse succeeding on every
frame. -/
def sampleParse : String → Option Nat := fun _ => some 3

/-- A sample parse function standing for JSON.parse failing on every
frame. -/
def sampleParseFail : String → Option Nat := fun _ => none

/-- A sample binary decoder. -/
def sampleDecode : String → Option Nat := fun _ => some 9

/-- A sample channel with two registered interests under distinct node
ids. -/
def sampleChan : ChannelState Nat :=
  { bootstrap := "boot"
    callbacks := [("n1", { deviceId := "dev1", callback := 7 }),
                  ("n2", { deviceId := "dev2", callback := 8 })]
    wsOpen := true }

/-- The sample channel after its socket has closed. -/
def sampleChanClosed : ChannelState Nat :=
  { sampleChan with wsOpen := false }

/-! ## Helper lemmas about lists -/

theorem map_eq_on {A B : Type} (l : List A) (f g : A → B) (h : ∀ a ∈ l, f a = g a) :
    l.map f = l.map g := by
  induction l with
  | nil => rfl
  | cons a t ih =>
      simp only [List.map_cons]
      rw [h a (List.mem_cons_self a t), ih (fun x hx => h x (List.mem_cons_of_mem a hx))]

theorem map_id_on {A : Type} (l : List A) (f : A → A) (h : ∀ a ∈ l, f a = a) :
    l.map f = l := by
  have := map_eq_on l f id h
  simpa using this

theorem filter_eq_on {A : Type} (l : List A) (p q : A → Bool) (h : ∀ a ∈ l, p a = q a) :
    l.filter p = l.filter q := by
  induction l with
  | nil => rfl
  | cons a t ih =>
      have ht : t.filter p = t.filter q := ih (fun x hx => h x (List.mem_cons_of_mem a hx))
      by_cases hp : p a = true
      · rw [List.filter_cons_of_pos hp, List.filter_cons_of_pos (by rw [← h a (List.mem_cons_self a t)]; exact hp), ht]
      · rw [List.filter_cons_of_neg (by simpa using hp),
            List.filter_cons_of_neg (by rw [← h a (List.mem_cons_self a t)]; simpa using hp), ht]

theorem filter_map_comm {A B : Type} (g : A → B) (p : B → Bool) (l : List A) :
    (l.map g).filter p = (l.filter (fun a => p (g a))).map g := by
  induction l with
  | nil => rfl
  | cons a t ih =>
      simp only [List.map_cons]
      by_cases h : p (g a) = true
      all_goals simp [List.filter_cons, h, ih]

theorem filter_key_eq_nil {A : Type} (k : String) (l : List (String × A))
    (h : k ∉ l.map Prod.fst) : l.filter (fun e => e.1 == k) = [] := by
  induction l with
  | nil => rfl
  | cons a t ih =>
      have hne : ¬(a.1 == k) = true := by
        simp only [beq_iff_eq]
        intro hk
        exact h (by simp [hk])
      rw [List.filter_cons_of_neg (by simpa using hne)]
      exact ih (fun hm => h (List.mem_cons_of_mem _ hm))

theorem filter_key_singleton {A : Type} (l : List (String × A))
    (hnd : (l.map Prod.fst).Nodup) (e : String × A) (he : e ∈ l) :
    (l.filter (fun x => x.1 == e.1)).length = 1 := by
  induction l with
  | nil => cases he
  | cons a t ih =>
      rw [List.map_cons, List.nodup_cons] at hnd
      rcases List.mem_cons.mp he with h1 | h2
      · subst h1
        rw [List.filter_cons_of_pos (by simp)]
        rw [filter_key_eq_nil e.1 t hnd.1]
        rfl
      · have hkey : e.1 ∈ t.map Prod.fst := List.mem_map.mpr ⟨e, h2, rfl⟩
        have hne : ¬(a.1 == e.1) = true := by
          simp only [beq_iff_eq]
          intro hk
          exact hnd.1 (hk ▸ hkey)
        rw [List.filter_cons_of_neg (by simpa using hne)]
        exact ih hnd.2 h2

theorem upsert_key_present {κ : Type} (reg : List (String × Interest κ)) (k : String)
    (i : Interest κ) : (upsert reg k i).any (fun e => e.1 == k) = true := by
  unfold upsert
  by_cases h : reg.any (fun e => e.1 == k) = true
  · rw [if_pos h]
    rcases List.any_eq_true.mp h with ⟨e, he, hek⟩
    refine List.any_eq_true.mpr ⟨(k, i), List.mem_map.mpr ⟨e, he, by simp [hek]⟩, by simp⟩
  · rw [if_neg h]
    exact List.any_eq_true.mpr ⟨(k, i), by simp, by simp⟩

theorem upsert_upsert {κ : Type} (reg : List (String × Interest κ)) (k : String)
    (i1 i2 : Interest κ) : upsert (upsert reg k i1) k i2 = upsert reg k i2 := by
  by_cases h : reg.any (fun e => e.1 == k) = true
  · have h1 : upsert reg k i1 = reg.map (fun e => if e.1 == k then (k, i1) else e) := by
      unfold upsert; rw [if_pos h]
    have h2 := upsert_key_present reg k i1
    rw [h1] at h2
    have lhs : upsert (upsert reg k i1) k i2
        = (reg.map (fun e => if e.1 == k then (k, i1) else e)).map
            (fun e => if e.1 == k then (k, i2) else e) := by
      rw [h1]; unfold upsert; rw [if_pos h2]
    rw [lhs, List.map_map]
    have rhs : upsert reg k i2 = reg.map (fun e => if e.1 == k then (k, i2) else e) := by
      unfold upsert; rw [if_pos h]
    rw [rhs]
    refine map_eq_on reg _ _ (fun e _ => ?_)
    by_cases hek : (e.1 == k) = true
    · simp [Function.comp, hek]
    · simp [Function.comp, hek]
  · have h1 : upsert reg k i1 = reg ++ [(k, i1)] := by
      unfold upsert; rw [if_neg h]
    have h2 : (reg ++ [(k, i1)]).any (fun e => e.1 == k) = true := by
      refine List.any_eq_true.mpr ⟨(k, i1), by simp, by simp⟩
    have lhs : upsert (upsert reg k i1) k i2
        = (reg ++ [(k, i1)]).map (fun e => if e.1 == k then (k, i2) else e) := by
      rw [h1]; unfold upsert; rw [if_pos h2]
    have hmem : ∀ e ∈ reg, (e.1 == k) = false := by
      intro e he
      by_contra hc
      exact h (List.any_eq_true.mpr ⟨e, he, by simpa using hc⟩)
    rw [lhs, List.map_append]
    have hid : reg.map (fun e => if e.1 == k then (k, i2) else e) = reg := by
      refine map_id_on reg _ (fun e he => ?_)
      rw [hmem e he]; simp
    rw [hid]
    have hrhs : upsert reg k i2 = reg ++ [(k, i2)] := by
      unfold upsert; rw [if_neg h]
    rw [hrhs]
    simp

theorem upsert_filter_ne {κ : Type} (reg : List (String × Interest κ)) (k : String)
    (i : Interest κ) :
    (upsert reg k i).filter (fun e => !(e.1 == k)) = reg.filter (fun e => !(e.1 == k)) := by
  by_cases h : reg.any (fun e => e.1 == k) = true
  · have h1 : upsert reg k i = reg.map (fun e => if e.1 == k then (k, i) else e) := by
      unfold upsert; rw [if_pos h]
    rw [h1, filter_map_comm]
    have hpred : reg.filter (fun a => !((if a.1 == k then (k, i) else a).1 == k))
        = reg.filter (fun a => !(a.1 == k)) := by
      refine filter_eq_on reg _ _ (fun a _ => ?_)
      by_cases hak : (a.1 == k) = true
      · simp [hak]
      · simp [hak]
    rw [hpred]
    refine map_id_on _ _ (fun a ha => ?_)
    have := (List.mem_filter.mp ha).2
    have hak : (a.1 == k) = false := by
      cases hb : (a.1 == k) with
      | true => rw [hb] at this; simp at this
      | false => rfl
    rw [hak]; simp
  · have h1 : upsert reg k i = reg ++ [(k, i)] := by
      unfold upsert; rw [if_neg h]
    rw [h1, List.filter_append]
    have : ([(k, i)] : List (String × Interest κ)).filter (fun e => !(e.1 == k)) = [] := by
      simp
    rw [this]
    simp

/-- A login attempt that lands in the catch-branch always produces the
cleared state, and schedules a retry exactly when the node is not
stopped. -/
theorem login_step_err_aux (s : ControllerState) (o : LoginOutcome) (ho : loginErr o = true) :
    authenticateWithRetryStep s o
      = (ControllerState.mk false s.stopped none,
         if s.stopped then LoginStepResult.pending else LoginStepResult.retryScheduled) := by
  cases o with
  | failure a => rfl
  | response status setCookie =>
      simp only [loginErr, Bool.or_eq_true, decide_eq_true_eq] at ho
      have hneg : ¬(200 ≤ status ∧ status < 300) := by omega
      simp only [authenticateWithRetryStep, if_neg hneg]

/-! ## Claim theorems -/

/-- Claim C1 (code bug evaluated at the failing input): a request whose first
attempt is rejected with HttpError 401 clears the credential and schedules a
resend, but the caller's promise is settled by the unconditional reject in
the catch handler: even though the scheduled resend then succeeds, the run's
observed settlement is the 401 rejection, not the resend's data. -/
theorem request_401_rejects_caller_despite_resend :
    axiosRequestRun (ControllerState.mk true false (some "TOKEN123"))
        [RequestOutcome.httpError 401, RequestOutcome.success "data"]
      = (ControllerState.mk false false none, some (Settle.rejected (RequestError.http 401)))
    ∧ (axiosRequestStep (ControllerState.mk true false (some "TOKEN123"))
        (RequestOutcome.httpError 401)).2.2 = true := by
  constructor
  · rfl
  · rfl

/-- Claim C2 (code bug evaluated at the failing input): with the node already
stopped, a 401 on an authenticated request still schedules a resend — the
request retry loop has no stopped check before its setTimeout.  By contrast
the login retry loop does check stopped and schedules nothing. -/
theorem resend_scheduled_after_shutdown :
    (axiosRequestStep (ControllerState.mk false true (some "TOKEN123"))
        (RequestOutcome.httpError 401)).2.2 = true
    ∧ axiosRequestStep (ControllerState.mk false true (some "TOKEN123"))
        (RequestOutcome.httpError 401)
      = (ControllerState.mk false true none, some (Settle.rejected (RequestError.http 401)), true)
    ∧ (authenticateWithRetryStep (ControllerState.mk false true none)
        (LoginOutcome.failure true)).2 = LoginStepResult.pending := by
  refine ⟨rfl, rfl, rfl⟩

/-- Claim C4, amended: if a nonempty credential string is cached and the
regenerate argument is not strictly true, getAuthCookie returns the stored
cookie at once and issues no login; with regenerate true a login is always
issued regardless of the cache.  Since the cached branch leaves the state
untouched, any sequence of such calls returns the identical credential with
no further login. -/
theorem getAuthCookie_cache_and_force :
    (∀ (s : ControllerState) (c : String) (r : Option Bool),
        s.authCookie = some c → c ≠ "" → r ≠ some true →
        getAuthCookie s r = .cached (some c))
    ∧ (∀ s : ControllerState, getAuthCookie s (some true) = .loginIssued) := by
  constructor
  · intro s c r hc hne hr
    unfold getAuthCookie
    rw [if_pos]
    · rw [hc]
    · refine ⟨?_, hr⟩
      rw [hc]
      unfold truthyStr
      simpa using hne
  · intro s
    unfold getAuthCookie
    rw [if_neg]
    intro h
    exact h.2 rfl

/-- Claim C4 witness: concrete cache hit and concrete forced
regeneration. -/
theorem getAuthCookie_cache_and_force_witness :
    getAuthCookie (ControllerState.mk true false (some "TOKEN123")) none
      = .cached (some "TOKEN123")
    ∧ getAuthCookie (ControllerState.mk true false (some "TOKEN123")) (some true)
      = .loginIssued :=
  ⟨getAuthCookie_cache_and_force.1 (ControllerState.mk true false (some "TOKEN123"))
      "TOKEN123" none rfl (by decide) (by decide),
   getAuthCookie_cache_and_force.2 (ControllerState.mk true false (some "TOKEN123"))⟩

/-- Claim C4 counterexample: the guard uses JS truthiness, so a cached
empty-string cookie with forceRegenerate false still issues a login — the
claim as stated (any cached credential is returned with no login) fails. -/
theorem getAuthCookie_empty_string_cookie_not_returned :
    (ControllerState.mk true false (some "")).authCookie.isSome = true
    ∧ getAuthCookie (ControllerState.mk true false (some "")) (some false)
      = .loginIssued := by
  refine ⟨rfl, ?_⟩
  unfold getAuthCookie
  rw [if_neg]
  intro h
  simp [truthyStr] at h

/-- Claim C5, amended: every login attempt that fails — a thrown network
error, an abort, or a response outside the 2xx range — clears the cached
credential, marks the manager unauthenticated and schedules exactly one
retry unless the manager is stopped; the promise resolves only from a 200
response (carrying the first set-cookie value), and while failures continue
and the manager is not stopped the loop keeps awaiting its next retry.  A
2xx response with status other than 200, however, leaves the state untouched
and schedules nothing, so the promise hangs. -/
theorem login_failure_clears_and_retries :
    (∀ (s : ControllerState) (o : LoginOutcome), loginErr o = true →
        authenticateWithRetryStep s o
          = (ControllerState.mk false s.stopped none,
             if s.stopped then LoginStepResult.pending else LoginStepResult.retryScheduled))
    ∧ (∀ (s : ControllerState) (o : LoginOutcome) (c : Option String),
        (authenticateWithRetryStep s o).2 = .resolved c →
        ∃ cs, o = .response 200 cs ∧ c = cs.head?)
    ∧ (∀ (s : ControllerState) (os : List LoginOutcome),
        (∀ o ∈ os, loginErr o = true) → s.stopped = false →
        (authenticateWithRetryRun s os).2 = .awaitingRetry) := by
  refine ⟨?_, ?_, ?_⟩
  · intro s o ho
    exact login_step_err_aux s o ho
  · intro s o c h
    cases o with
    | failure a =>
        exfalso
        unfold authenticateWithRetryStep at h
        by_cases hs : s.stopped = true
        all_goals simp [hs] at h
    | response status setCookie =>
        simp only [authenticateWithRetryStep] at h
        by_cases h2 : 200 ≤ status ∧ status < 300
        · rw [if_pos h2] at h
          by_cases h200 : status = 200
          · subst h200
            rw [if_pos rfl] at h
            simp at h
            exact ⟨setCookie, rfl, h.symm⟩
          · rw [if_neg h200] at h
            simp at h
        · rw [if_neg h2] at h
          by_cases hs : s.stopped = true
          all_goals simp [hs] at h
  · intro s os
    revert s
    induction os with
    | nil => intro s _ _; rfl
    | cons o rest ih =>
        intro s hall hs
        have ho := hall o (List.mem_cons_self o rest)
        have hstep := login_step_err_aux s o ho
        rw [hs] at hstep
        simp only [authenticateWithRetryRun, hstep]
        exact ih (ControllerState.mk false false none)
          (fun x hx => hall x (List.mem_cons_of_mem o hx)) rfl

/-- Claim C5 witness: a concrete failed attempt clears the state and
schedules a retry, and a run of two consecutive failures is still awaiting
its next retry. -/
theorem login_failure_clears_and_retries_witness :
    authenticateWithRetryStep (ControllerState.mk true false (some "TOKEN123"))
        (LoginOutcome.failure false)
      = (ControllerState.mk false false none, LoginStepResult.retryScheduled)
    ∧ (authenticateWithRetryRun (ControllerState.mk true false (some "TOKEN123"))
        [LoginOutcome.failure true, LoginOutcome.failure false]).2
      = LoginRunStatus.awaitingRetry :=
  ⟨login_failure_clears_and_retries.1 (ControllerState.mk true false (some "TOKEN123"))
      (LoginOutcome.failure false) rfl,
   login_failure_clears_and_retries.2.2 (ControllerState.mk true false (some "TOKEN123"))
      [LoginOutcome.failure true, LoginOutcome.failure false] (by decide) rfl⟩

/-- Claim C5 counterexample: a 204 response is a login attempt that does not
return success status (success is 200), yet the then-branch's status check
has no else, so the cached credential is kept, the manager stays marked
authenticated, and no retry is scheduled — the promise just hangs. -/
theorem login_204_keeps_credential_and_schedules_nothing :
    authenticateWithRetryStep (ControllerState.mk true false (some "TOKEN123"))
        (LoginOutcome.response 204 [])
      = (ControllerState.mk true false (some "TOKEN123"), LoginStepResult.pending)
    ∧ (authenticateWithRetryRun (ControllerState.mk true false (some "TOKEN123"))
        [LoginOutcome.response 204 []]).2 = LoginRunStatus.hung := by
  decide

/-- Claim C8, amended: the two-valued credential invariant (authenticated
exactly when a cookie is cached) holds initially and is preserved by every
modelled operation — any request attempt outcome, the close handler, and any
login attempt outcome whose 200-response carries a set-cookie header; it is
broken precisely by a 200 login response with no set-cookie value, which
marks the manager authenticated while caching nothing. -/
theorem cred_invariant_preserved (s : ControllerState) (hs : credInvariant s = true) :
    (∀ o : LoginOutcome, loginHeaderOk o = true →
        credInvariant (authenticateWithRetryStep s o).1 = true)
    ∧ (∀ o : RequestOutcome, credInvariant (axiosRequestStep s o).1 = true)
    ∧ credInvariant (onCloseStep s) = true := by
  refine ⟨?_, ?_, ?_⟩
  · intro o ho
    cases o with
    | failure a => simp [authenticateWithRetryStep, credInvariant]
    | response status setCookie =>
        by_cases h2 : 200 ≤ status ∧ status < 300
        · by_cases h200 : status = 200
          · subst h200
            simp only [loginHeaderOk, if_pos rfl, Bool.not_eq_true'] at ho
            simp only [authenticateWithRetryStep, if_pos h2, if_pos rfl]
            cases setCookie with
            | nil => simp at ho
            | cons c rest => simp [credInvariant]
          · simp only [authenticateWithRetryStep, if_pos h2, if_neg h200]
            exact hs
        · simp only [authenticateWithRetryStep, if_neg h2]
          simp [credInvariant]
  · intro o
    cases o with
    | success d => exact hs
    | httpError status =>
        by_cases h401 : status = 401
        · simp only [axiosRequestStep, if_pos h401]
          simp [credInvariant]
        · simp only [axiosRequestStep, if_neg h401]
          exact hs
    | otherError m => exact hs
  · exact hs

/-- Claim C8 witness: from the initial state (unauthenticated, no cookie), a
200 login response carrying a set-cookie value and a 401-rejected request
both preserve the invariant. -/
theorem cred_invariant_preserved_witness :
    credInvariant (authenticateWithRetryStep (ControllerState.mk false false none)
        (LoginOutcome.response 200 ["TOKEN123"])).1 = true
    ∧ credInvariant (axiosRequestStep (ControllerState.mk false false none)
        (RequestOutcome.httpError 401)).1 = true :=
  ⟨(cred_invariant_preserved (ControllerState.mk false false none) rfl).1
      (LoginOutcome.response 200 ["TOKEN123"]) (by decide),
   (cred_invariant_preserved (ControllerState.mk false false none) rfl).2.1
      (RequestOutcome.httpError 401)⟩

/-- Claim C8 counterexample: a successful (200) login response whose
set-cookie header is absent resolves and marks the manager authenticated
while caching no credential, so the claimed invariant is broken by exactly
the operation the claim says preserves it. -/
theorem login_200_missing_header_breaks_invariant :
    authenticateWithRetryStep (ControllerState.mk false false none)
        (LoginOutcome.response 200 [])
      = (ControllerState.mk true false none, LoginStepResult.resolved none)
    ∧ credInvariant (ControllerState.mk true false none) = false := by
  decide

/-- Claim C10: with an empty endpoint, request builds the URL from the empty
endpoint and still issues the HTTP request; the promise the caller receives
is settled only by the axios loop, is never a validation rejection, and the
rejected promises the validation ifs create float unobserved on the side. -/
theorem request_validation_unobserved (base : String) (cfg : ControllerConfig)
    (s : ControllerState) (outcomes : List RequestOutcome) :
    (request base cfg s "" outcomes).1 = urlBuilder base cfg ""
    ∧ (request base cfg s "" outcomes).2.2 = (axiosRequestRun s outcomes).2
    ∧ isValidationRejection (request base cfg s "" outcomes).2.2 = false
    ∧ floatingRejections "" "GET" = ["endpoint cannot be empty!"]
    ∧ floatingRejections "" "" = ["endpoint cannot be empty!", "method cannot be empty!"] := by
  refine ⟨rfl, rfl, ?_, rfl, rfl⟩
  show isValidationRejection (axiosRequestRun s outcomes).2 = false
  induction outcomes generalizing s with
  | nil => rfl
  | cons o rest ih =>
      cases o with
      | success d => rfl
      | httpError status =>
          by_cases h401 : status = 401
          · subst h401
            simp only [axiosRequestRun, axiosRequestStep, if_pos rfl]
            rfl
          · simp only [axiosRequestRun, axiosRequestStep, if_neg h401]
            rfl
      | otherError m => rfl

/-- Claim C3 (code bug evaluated at the failing input): Connect installs a
handler only for message, so a server-initiated close or a connection error
of the socket runs no repository code: the channel with a registered
interest dispatches nothing and schedules no reconnect (the third component
is false), terminating silently.  The registry itself is untouched by a
close and by Connect, so interests would survive a reconnect if one
existed. -/
theorem no_reconnect_on_close :
    socketEventStep sampleParse sampleDecode sampleChan (WSEvent.closed : WSEvent String)
      = (sampleChanClosed, ([] : List (String × Nat × Option Nat)), false)
    ∧ socketEventStep sampleParse sampleDecode sampleChan (WSEvent.errored : WSEvent String)
      = (sampleChan, ([] : List (String × Nat × Option Nat)), false)
    ∧ connectHandlers.contains WSHandlerKind.close = false
    ∧ connectHandlers.contains WSHandlerKind.error = false
    ∧ (Connect sampleChanClosed).callbacks = sampleChan.callbacks := by
  refine ⟨by decide, by decide, by decide, by decide, by decide⟩

/-- Claim C6: for a decodable frame, every registered interest's callback is
invoked exactly once with the same decoded payload, whatever deviceId each
Interest carries: the handler leaves the channel state unchanged, produces
one invocation event per registry entry, delivers the identical payload to
each entry, and, because registry keys are unique, each consumer receives it
exactly once. -/
theorem fanout_exactly_once {κ F P : Type} (parse decode : F → Option P)
    (s : ChannelState κ) (f : F) (v : P)
    (hnd : (s.callbacks.map Prod.fst).Nodup)
    (hdec : objectToSend parse decode f = some v) :
    (onFrame parse decode s f).1 = s
    ∧ ((onFrame parse decode s f).2).length = s.callbacks.length
    ∧ (∀ e ∈ s.callbacks, (e.1, e.2.callback, some v) ∈ (onFrame parse decode s f).2)
    ∧ (∀ e ∈ s.callbacks,
        (((onFrame parse decode s f).2).filter (fun x => x.1 == e.1)).length = 1) := by
  refine ⟨rfl, ?_, ?_, ?_⟩
  · simp [onFrame]
  · intro e he
    simp only [onFrame]
    rw [hdec]
    exact List.mem_map.mpr ⟨e, he, rfl⟩
  · intro e he
    simp only [onFrame]
    rw [filter_map_comm
        (fun e' : String × Interest κ => (e'.1, e'.2.callback, objectToSend parse decode f))
        (fun x => x.1 == e.1) s.callbacks]
    rw [List.length_map]
    exact filter_key_singleton s.callbacks hnd e he

/-- Claim C6 witness: on the sample channel with two interests, the decoded
payload reaches the consumer registered under n1 exactly once. -/
theorem fanout_exactly_once_witness :
    (onFrame sampleParse sampleDecode sampleChan "frame").1 = sampleChan
    ∧ ("n1", 7, some 3) ∈ (onFrame sampleParse sampleDecode sampleChan "frame").2
    ∧ (((onFrame sampleParse sampleDecode sampleChan "frame").2).filter
        (fun x => x.1 == "n1")).length = 1 :=
  ⟨(fanout_exactly_once sampleParse sampleDecode sampleChan "frame" 3 (by decide) rfl).1,
   (fanout_exactly_once sampleParse sampleDecode sampleChan "frame" 3 (by decide) rfl).2.2.1
      ("n1", { deviceId := "dev1", callback := 7 }) (by decide),
   (fanout_exactly_once sampleParse sampleDecode sampleChan "frame" 3 (by decide) rfl).2.2.2
      ("n1", { deviceId := "dev1", callback := 7 }) (by decide)⟩

/-- Claim C7: structured-text decoding is attempted first, and the binary
decoder is consulted exactly when JSON parsing fails: when parse succeeds
the payload is the parsed value and the binary decoder is irrelevant to the
result; when parse fails the payload is whatever the binary decoder yields;
when both fail no decoded payload is produced; and in every case the handler
leaves the channel state (connection and registry) unchanged, affecting no
other frame, while dispatching the routed payload to the registry. -/
theorem decode_routing {κ F P : Type} (parse decode decode' : F → Option P)
    (s : ChannelState κ) (f : F) :
    (∀ v, parse f = some v → objectToSend parse decode f = some v)
    ∧ (parse f = none → objectToSend parse decode f = decode f)
    ∧ (parse f = none → decode f = none → objectToSend parse decode f = none)
    ∧ (∀ v, parse f = some v →
        objectToSend parse decode f = objectToSend parse decode' f)
    ∧ (onFrame parse decode s f).1 = s
    ∧ (onFrame parse decode s f).2
        = s.callbacks.map (fun e => (e.1, e.2.callback, objectToSend parse decode f)) := by
  refine ⟨?_, ?_, ?_, ?_, rfl, rfl⟩
  · intro v hv; simp [objectToSend, hv]
  · intro hn; simp [objectToSend, hn]
  · intro hn hd; simp [objectToSend, hn, hd]
  · intro v hv; simp [objectToSend, hv]

/-- Claim C7 witness: a frame whose JSON parse succeeds takes the text path
(the binary decoder's value 9 does not appear), a frame whose JSON parse
fails takes the binary path, and the handler leaves the sample channel
unchanged. -/
theorem decode_routing_witness :
    objectToSend sampleParse sampleDecode "frame" = some 3
    ∧ objectToSend sampleParseFail sampleDecode "frame" = sampleDecode "frame"
    ∧ (onFrame sampleParse sampleDecode sampleChan "frame").1 = sampleChan :=
  ⟨(decode_routing sampleParse sampleDecode sampleDecode sampleChan "frame").1 3 rfl,
   (decode_routing sampleParseFail sampleDecode sampleDecode sampleChan "frame").2.1 rfl,
   (decode_routing sampleParse sampleDecode sampleDecode sampleChan "frame").2.2.2.2.1⟩

/-- Claim C9: registerInterest is an idempotent upsert keyed by consumer
identity: registering k with i1 and then with i2 leaves the channel exactly
as registering k with i2 alone; registering the same pair twice equals
registering it once; and entries under every other key are unchanged. -/
theorem registerInterest_upsert {κ : Type} (s : ChannelState κ) (k : String)
    (i1 i2 i : Interest κ) :
    registerInterest (registerInterest s k i1) k i2 = registerInterest s k i2
    ∧ registerInterest (registerInterest s k i) k i = registerInterest s k i
    ∧ (registerInterest s k i).callbacks.filter (fun e => !(e.1 == k))
        = s.callbacks.filter (fun e => !(e.1 == k)) := by
  refine ⟨?_, ?_, ?_⟩
  · simp only [registerInterest]
    rw [upsert_upsert]
  · simp only [registerInterest]
    rw [upsert_upsert]
  · simp only [registerInterest]
    exact upsert_filter_ne s.callbacks k i

end UnifiOS
